import Mathlib

/-!
Shallow embedding of `src/server.py` (an MCP server for the Early/Timeular
time-tracking API) and verification of its specification claims.

Python strings are modelled as Lean `String` (a list of characters);
Python `str.strip` / `str.replace` / truthiness are modelled explicitly
below, following CPython semantics.  JSON values handled by the server
are modelled by the inductive type `Json`; Python `dict.get` on them is
modelled with an explicit `AttributeError` failure when the receiver is
not a dict, exactly as CPython raises.
-/

namespace EarlyMcp

/-- The set of characters removed by Python `str.strip()` with no
arguments: every character for which `str.isspace()` holds. -/
def isPySpace (c : Char) : Bool :=
  c = ' ' || c = '\t' || c = '\n' || (9 ≤ c.toNat && c.toNat ≤ 13) ||
  (28 ≤ c.toNat && c.toNat ≤ 31) || c.toNat = 0x85 || c.toNat = 0xa0 ||
  c.toNat = 0x1680 || (0x2000 ≤ c.toNat && c.toNat ≤ 0x200a) ||
  c.toNat = 0x2028 || c.toNat = 0x2029 || c.toNat = 0x202f ||
  c.toNat = 0x205f || c.toNat = 0x3000

/-- Python `str.strip()` on the character list: drop leading and trailing
whitespace. -/
def pyStripList (l : List Char) : List Char :=
  (l.dropWhile isPySpace).rdropWhile isPySpace

/-- Python `str.strip()`. -/
def pyStrip (s : String) : String :=
  String.mk (pyStripList s.data)

/-- Auxiliary recursion for Python `str.replace` with a non-empty
pattern `pat`: scan left to right, replacing each non-overlapping,
leftmost occurrence of the pattern by `rep`.  The `skip` counter
counts characters of an already-replaced occurrence still to be
consumed, making the recursion structural in the scanned list. -/
def replaceAux (pat rep : List Char) : List Char → Nat → List Char
  | [], _ => []
  | _ :: rest, skip + 1 => replaceAux pat rep rest skip
  | c :: rest, 0 =>
    if pat.isPrefixOf (c :: rest) then
      rep ++ replaceAux pat rep rest (pat.length - 1)
    else
      c :: replaceAux pat rep rest 0

/-- Python `str.replace(pat, rep)`: replaces every non-overlapping
occurrence of `pat` left to right; with an empty pattern, CPython
inserts `rep` before every character and at the end. -/
def pyReplace (s pat rep : String) : String :=
  match pat.data with
  | [] => String.mk (rep.data ++ (s.data.map (fun c => c :: rep.data)).flatten)
  | _ :: _ => String.mk (replaceAux pat.data rep.data s.data 0)

/-- `_to_api_ts` from `src/server.py`:
strip, then: length 10 → append `"T00:00:00.000"`; no `'.'` → append
`".000"`; otherwise unchanged. -/
def toApiTs (dt_str : String) : String :=
  if (pyStrip dt_str).length = 10 then pyStrip dt_str ++ "T00:00:00.000"
  else if ((pyStrip dt_str).data.contains '.') = false then pyStrip dt_str ++ ".000"
  else pyStrip dt_str

/-- `_end_of_day_api_ts` from `src/server.py`. -/
def endOfDayApiTs (date_str : String) : String :=
  pyStrip date_str ++ "T23:59:59.999"

example : toApiTs "2025-01-15" = "2025-01-15T00:00:00.000" := by decide
example : toApiTs "2025-01-15T09:00:00" = "2025-01-15T09:00:00.000" := by decide
example : toApiTs "2025-01-15T09:00:00.123" = "2025-01-15T09:00:00.123" := by decide
example : endOfDayApiTs "2025-01-15" = "2025-01-15T23:59:59.999" := by decide
example : toApiTs (toApiTs "090000") = "090000.000T00:00:00.000" := by decide
example : pyReplace "Fixed aXa" "aXa" "ok" = "Fixed ok" := by decide

/-! ## JSON values and Python dict semantics -/

/-- JSON values as handled by the server (`resp.json()` results).
JSON numbers are modelled as integers; no claim involves fractional
numeric values. -/
inductive Json where
  | null
  | bool (b : Bool)
  | int (n : Int)
  | str (s : String)
  | arr (xs : List Json)
  | obj (fs : List (String × Json))

/-- Python truthiness (`if x:`) of a JSON value: `None`, `False`, `0`,
`""`, `[]` and `{}` are falsy, everything else truthy. -/
def pyTruthy : Json → Bool
  | Json.null => false
  | Json.bool b => b
  | Json.int n => !(n == 0)
  | Json.str s => !s.isEmpty
  | Json.arr xs => !xs.isEmpty
  | Json.obj fs => !fs.isEmpty

/-- Lookup with default on an association list: `dict.get(key, d)`
on a value known to be a dict. -/
def lookupD : List (String × Json) → String → Json → Json
  | [], _, d => d
  | (k, v) :: rest, key, d => if k = key then v else lookupD rest key d

/-- `x.get(key, d)` where `x` is an arbitrary value: succeeds on a
dict, raises `AttributeError` otherwise (e.g. when `x` is `None`),
exactly as CPython does. -/
def dictGetD (j : Json) (key : String) (d : Json) : Except String Json :=
  match j with
  | Json.obj fs => Except.ok (lookupD fs key d)
  | _ => Except.error "AttributeError: no attribute get"

mutual

/-- Python `repr` of a JSON value, used by `str()` on lists and dicts.
Quote/escape refinements of CPython `repr` for exotic strings are not
modelled; no claim depends on them (the API's ids and keys are plain
strings and `str()` of a string does not go through `repr`). -/
def pyRepr : Json → String
  | Json.null => "None"
  | Json.bool b => if b then "True" else "False"
  | Json.int n => toString n
  | Json.str s => "'" ++ s ++ "'"
  | Json.arr xs => "[" ++ pyReprArr xs ++ "]"
  | Json.obj fs => "\x7b" ++ pyReprObj fs ++ "\x7d"

/-- Comma-separated `repr` of list elements. -/
def pyReprArr : List Json → String
  | [] => ""
  | [x] => pyRepr x
  | x :: y :: xs => pyRepr x ++ ", " ++ pyReprArr (y :: xs)

/-- Comma-separated `repr` of dict items. -/
def pyReprObj : List (String × Json) → String
  | [] => ""
  | [(k, v)] => "'" ++ k ++ "': " ++ pyRepr v
  | (k, v) :: f :: fs => "'" ++ k ++ "': " ++ pyRepr v ++ ", " ++ pyReprObj (f :: fs)

end

/-- Python `str()` of a JSON value (as interpolated by an f-string):
scalars print directly, containers via `repr`. -/
def pyStr (j : Json) : String :=
  match j with
  | Json.null => "None"
  | Json.bool b => if b then "True" else "False"
  | Json.int n => toString n
  | Json.str s => s
  | Json.arr xs => "[" ++ pyReprArr xs ++ "]"
  | Json.obj fs => "\x7b" ++ pyReprObj fs ++ "\x7d"

/-! ## `_format_note` -/

/-- The tag placeholder token `<{\x7b|t|ID|\x7d}>` built by the f-string
`f"<{{{{|t|{tag_id}|}}}}>"` in `_format_note`. -/
def tagTok (tagId : String) : String := "<\x7b\x7b|t|" ++ tagId ++ "|\x7d\x7d>"

/-- The mention placeholder token built by `f"<{{{{|m|{m_id}|}}}}>"`. -/
def mentionTok (mId : String) : String := "<\x7b\x7b|m|" ++ mId ++ "|\x7d\x7d>"

/-- `t.replace(pat, rep)` on an arbitrary value `t`: succeeds when `t`
is a string, raises `AttributeError` otherwise. -/
def strReplaceJson (t : Json) (pat rep : String) : Except String Json :=
  match t with
  | Json.str s => Except.ok (Json.str (pyReplace s pat rep))
  | _ => Except.error "AttributeError: no attribute replace"

/-- `t.strip()` on an arbitrary value `t`. -/
def strStripJson : Json → Except String String
  | Json.str s => Except.ok (pyStrip s)
  | _ => Except.error "AttributeError: no attribute strip"

/-- A `for` loop over a JSON value: the API delivers arrays for
`tags`/`mentions`; iteration over other values is modelled as a
failure (CPython would raise `TypeError` for the non-iterable ones). -/
def asArr : Json → Except String (List Json)
  | Json.arr xs => Except.ok xs
  | _ => Except.error "TypeError: not iterable"

/-- The `for tag in tags` loop of `_format_note`: for each tag dict,
read `id` (default `None`), `key` (default `""`), `indices` (default
`[]`); when `indices` is truthy, replace the tag token by
`"#" + key`. -/
def applyTags : Json → List Json → Except String Json
  | t, [] => Except.ok t
  | t, tag :: rest => do
    let tagId ← dictGetD tag "id" Json.null
    let key ← dictGetD tag "key" (Json.str "")
    let indices ← dictGetD tag "indices" (Json.arr [])
    let t2 ←
      if pyTruthy indices then
        strReplaceJson t (tagTok (pyStr tagId)) ("#" ++ pyStr key)
      else
        pure t
    applyTags t2 rest

/-- The `for mention in mentions` loop of `_format_note`: unconditional
replacement of the mention token by `"@" + key`. -/
def applyMentions : Json → List Json → Except String Json
  | t, [] => Except.ok t
  | t, m :: rest => do
    let mId ← dictGetD m "id" Json.null
    let key ← dictGetD m "key" (Json.str "")
    let t2 ← strReplaceJson t (mentionTok (pyStr mId)) ("@" ++ pyStr key)
    applyMentions t2 rest

/-- `_format_note` from `src/server.py`. -/
def formatNote (note : Json) : Except String String :=
  if pyTruthy note = false then Except.ok ""
  else do
    let text ← dictGetD note "text" (Json.str "")
    let tagsJ ← dictGetD note "tags" (Json.arr [])
    let mentionsJ ← dictGetD note "mentions" (Json.arr [])
    let tags ← asArr tagsJ
    let mentions ← asArr mentionsJ
    let t1 ← applyTags text tags
    let t2 ← applyMentions t1 mentions
    strStripJson t2

/-! ## `_format_entry` -/

/-- The display record built by `_format_entry`. -/
structure DisplayEntry where
  id : Json
  activity_id : Json
  activity_name : Json
  started_at : Json
  stopped_at : Json
  note : String
  note_raw : Json

/-- `_format_entry` from `src/server.py`; the entry argument is a dict.
Failures (Python exceptions) are modelled in `Except`; the fallible
`.get` calls are sequenced in the evaluation order of the Python dict
literal. -/
def formatEntry (entry : List (String × Json)) : Except String DisplayEntry := do
  let duration := lookupD entry "duration" (Json.obj [])
  let aname ← dictGetD (lookupD entry "activity" (Json.obj [])) "name" (Json.str "")
  let sAt ← dictGetD duration "startedAt" (Json.str "")
  let spAt ← dictGetD duration "stoppedAt" (Json.str "")
  let noteTxt ← formatNote (lookupD entry "note" Json.null)
  Except.ok
    { id := lookupD entry "id" Json.null
      activity_id := lookupD entry "activityId" Json.null
      activity_name := aname
      started_at := sAt
      stopped_at := spAt
      note := noteTxt
      note_raw := lookupD entry "note" Json.null }

example :
    formatNote (Json.obj
      [("text", Json.str "Fixed <\x7b\x7b|t|T1|\x7d\x7d> with @<\x7b\x7b|m|M1|\x7d\x7d>"),
       ("tags", Json.arr [Json.obj
         [("id", Json.str "T1"), ("key", Json.str "WEB-1"),
          ("indices", Json.arr [Json.int 0])]]),
       ("mentions", Json.arr [Json.obj
         [("id", Json.str "M1"), ("key", Json.str "alice")]])]) =
    Except.ok "Fixed #WEB-1 with @@alice" := rfl

example : formatEntry [("activity", Json.null)] =
    Except.error "AttributeError: no attribute get" := rfl

example : formatNote Json.null = Except.ok "" := rfl

/-- `x.get(key, d)` for a value already known to be a dict or defaulted
to one, total version: non-dicts yield the default (used only to state
theorems; the executable model is `dictGetD`). -/
def objGetD (j : Json) (key : String) (d : Json) : Json :=
  match j with
  | Json.obj fs => lookupD fs key d
  | _ => d

/-- Is the value a JSON object (a Python dict)? -/
def isObjB : Json → Bool
  | Json.obj _ => true
  | _ => false

/-! ## Session manager (`_client`)

`_client` reads `EARLY_API_KEY` / `EARLY_API_SECRET`, rejects falsy
values, performs one `POST /developer/sign-in`, and stores one
process-wide `httpx.AsyncClient` in the global `_http`.  The
process-wide mutable state is made explicit in `SessState`; HTTP
clients are identified by the order of their construction. -/

/-- The out-of-band inputs of `_client`: the two environment variables
(absent or a string, as returned by `os.environ.get`) and whether the
remote service accepts the credentials (the outcome of
`resp.raise_for_status()` on the sign-in response). -/
structure Env where
  apiKey : Option String
  apiSecret : Option String
  signInOk : Bool

/-- Python truthiness of `os.environ.get(...)`: `None` and `""` are
falsy. -/
def optStrTruthy : Option String → Bool
  | none => false
  | some s => !s.isEmpty

/-- The process-wide mutable state touched by `_client`: the stored
client (`_http`), the number of sign-in HTTP calls performed so far,
and a supply of fresh client identities. -/
structure SessState where
  http : Option Nat
  signIns : Nat
  nextClient : Nat

/-- Process start: no client stored, no sign-in performed. -/
def initSess : SessState := { http := none, signIns := 0, nextClient := 0 }

/-- The errors `_client` can raise: `RuntimeError` for missing
credentials (the spec's ConfigurationError) and the
`raise_for_status` failure of the sign-in call (the spec's
AuthenticationError). -/
inductive ClientErr where
  | configError
  | authError

/-- One call of `_client` executed without interleaving (its effect as
seen by a caller when no other call overlaps it), following the
source top to bottom: return the stored client if present; raise if a
credential is falsy; otherwise perform the sign-in call and, on
success, construct and store a fresh client. -/
def clientCall (env : Env) (g : SessState) : Except ClientErr Nat × SessState :=
  match g.http with
  | some c => (Except.ok c, g)
  | none =>
    if !optStrTruthy env.apiKey || !optStrTruthy env.apiSecret then
      (Except.error ClientErr.configError, g)
    else
      let g1 := { g with signIns := g.signIns + 1 }
      if env.signInOk then
        (Except.ok g1.nextClient,
         { g1 with http := some g1.nextClient, nextClient := g1.nextClient + 1 })
      else
        (Except.error ClientErr.authError, g1)

/-- `n` sequential (non-overlapping) calls of `_client`. -/
def runCalls (env : Env) : Nat → SessState → List (Except ClientErr Nat) × SessState
  | 0, g => ([], g)
  | n + 1, g =>
    let (r, g1) := clientCall env g
    let (rs, g2) := runCalls env n g1
    (r :: rs, g2)

/-- The progress of one in-flight `_client` coroutine, split at its
`await` points: `start` (not yet run), `inSignIn` (passed the
`_http is None` and credential checks, suspended inside
`async with httpx.AsyncClient()`, about to `await tmp.post`),
`gotToken` (sign-in response received and token extracted, suspended
leaving the `async with` block), `finished`/`errored` (returned or
raised). -/
inductive TaskState where
  | start
  | inSignIn
  | gotToken
  | finished (client : Nat)
  | errored (e : ClientErr)

/-- One scheduler step of one `_client` coroutine: runs the coroutine
from its current suspension point to the next one.  There is no lock
in the source, so the shared state `g` is read and written directly. -/
def stepTask (env : Env) (g : SessState) : TaskState → TaskState × SessState
  | TaskState.start =>
    match g.http with
    | some c => (TaskState.finished c, g)
    | none =>
      if !optStrTruthy env.apiKey || !optStrTruthy env.apiSecret then
        (TaskState.errored ClientErr.configError, g)
      else
        (TaskState.inSignIn, g)
  | TaskState.inSignIn =>
    if env.signInOk then
      (TaskState.gotToken, { g with signIns := g.signIns + 1 })
    else
      (TaskState.errored ClientErr.authError, { g with signIns := g.signIns + 1 })
  | TaskState.gotToken =>
    (TaskState.finished g.nextClient,
     { g with http := some g.nextClient, nextClient := g.nextClient + 1 })
  | TaskState.finished c => (TaskState.finished c, g)
  | TaskState.errored e => (TaskState.errored e, g)

/-- Run the coroutine picked by the scheduler one step. -/
def schedStep (env : Env) (ts : List TaskState) (g : SessState) (i : Nat) :
    List TaskState × SessState :=
  match ts.get? i with
  | none => (ts, g)
  | some t =>
    let (tn, gn) := stepTask env g t
    (ts.set i tn, gn)

/-- Run a list of concurrent `_client` coroutines under an explicit
schedule (the list of indices of the coroutine resumed at each
step). -/
def runSched (env : Env) : List Nat → List TaskState → SessState →
    List TaskState × SessState
  | [], ts, g => (ts, g)
  | i :: rest, ts, g =>
    let (ts2, g2) := schedStep env ts g i
    runSched env rest ts2 g2

/-! ## Partial-update handler bodies

`early_edit_current_tracking` and `early_update_time_entry` build
their JSON request bodies by inserting a key only when the
corresponding argument is truthy (a non-empty string).  Python dicts
preserve insertion order, modelled by the association list. -/

/-- The request body built by `early_edit_current_tracking`. -/
def editCurrentTrackingBody (note activity_id started_at : String) :
    List (String × Json) :=
  (if !note.isEmpty then [("note", Json.obj [("text", Json.str note)])] else []) ++
  (if !activity_id.isEmpty then [("activityId", Json.str activity_id)] else []) ++
  (if !started_at.isEmpty then [("startedAt", Json.str (toApiTs started_at))] else [])

/-- The request body built by `early_update_time_entry`. -/
def updateTimeEntryBody (activity_id started_at stopped_at note : String) :
    List (String × Json) :=
  (if !activity_id.isEmpty then [("activityId", Json.str activity_id)] else []) ++
  (if !started_at.isEmpty then [("startedAt", Json.str (toApiTs started_at))] else []) ++
  (if !stopped_at.isEmpty then [("stoppedAt", Json.str (toApiTs stopped_at))] else []) ++
  (if !note.isEmpty then [("note", Json.obj [("text", Json.str note)])] else [])

/-! ## Reference formulations from the spec's words

For the refinement claims, the spec's description of `formatNote` is
written out as plain string recursion over typed tag/mention tables,
to be compared with the dict-level `formatNote` above. -/

/-- A note as the spec's data model describes it: text, tags
`(id, key, indices)`, mentions `(id, key)`; built as the JSON object
the remote API delivers. -/
def tagEntry (t : String × String × List Json) : Json :=
  Json.obj [("id", Json.str t.1), ("key", Json.str t.2.1),
            ("indices", Json.arr t.2.2)]

/-- A mention side-table entry as a JSON object. -/
def mentionEntry (m : String × String) : Json :=
  Json.obj [("id", Json.str m.1), ("key", Json.str m.2)]

/-- The JSON note object with the given text and side-tables. -/
def mkNote (text : String) (tags : List (String × String × List Json))
    (mentions : List (String × String)) : Json :=
  Json.obj [("text", Json.str text),
            ("tags", Json.arr (tags.map tagEntry)),
            ("mentions", Json.arr (mentions.map mentionEntry))]

/-- Modelled from the spec: "for each tag entry with a non-empty
`indices` list, replaces every literal occurrence of the placeholder
token built from that tag's id with `#` followed by the tag's key",
in side-table order. -/
def replaceTagsSpec (text : String)
    (tags : List (String × String × List Json)) : String :=
  tags.foldl
    (fun t tg => if tg.2.2.isEmpty then t
                 else pyReplace t (tagTok tg.1) ("#" ++ tg.2.1))
    text

/-- Modelled from the spec: "for every mention entry (unconditionally),
replaces every literal occurrence of the placeholder token built from
that mention's id with `@` followed by the mention's key". -/
def replaceMentionsSpec (text : String)
    (mentions : List (String × String)) : String :=
  mentions.foldl (fun t m => pyReplace t (mentionTok m.1) ("@" ++ m.2)) text

/-- Modelled from the spec: tags substituted before mentions, then the
result trimmed of leading/trailing whitespace. -/
def formatNoteSpec (text : String) (tags : List (String × String × List Json))
    (mentions : List (String × String)) : String :=
  pyStrip (replaceMentionsSpec (replaceTagsSpec text tags) mentions)

/-! ## Lemmas about `pyStrip` -/

theorem length_dropWhile_le' (p : Char → Bool) (l : List Char) :
    (l.dropWhile p).length ≤ l.length := by
  induction l with
  | nil => simp [List.dropWhile]
  | cons c r ih =>
    rw [List.dropWhile_cons]
    cases hc : p c
    · simp
    · exact Nat.le_succ_of_le ih

theorem dropWhile_fix_head_not (p : Char → Bool) (c : Char) (r : List Char)
    (h : List.dropWhile p (c :: r) = c :: r) : p c = false := by
  by_contra hc
  rw [Bool.not_eq_false] at hc
  rw [List.dropWhile_cons_of_pos hc] at h
  have h1 : (List.dropWhile p r).length = r.length + 1 := by rw [h]; simp
  have h2 := length_dropWhile_le' p r
  omega

theorem dropWhile_append_fix (u d : List Char)
    (hu : List.dropWhile isPySpace u = u)
    (hd : List.dropWhile isPySpace d = d) :
    List.dropWhile isPySpace (u ++ d) = u ++ d := by
  cases u with
  | nil => simpa using hd
  | cons c r =>
    have hc := dropWhile_fix_head_not isPySpace c r hu
    rw [List.cons_append, List.dropWhile_cons_of_neg (by simp [hc])]

theorem rdropWhile_append_fix (u d : List Char)
    (hd : List.rdropWhile isPySpace d = d) (hne : d ≠ []) :
    List.rdropWhile isPySpace (u ++ d) = u ++ d := by
  rw [List.rdropWhile_eq_self_iff]
  intro h
  rw [List.getLast_append' u d hne]
  exact List.rdropWhile_eq_self_iff.mp hd hne

theorem dropWhile_pyStripList (l : List Char) :
    List.dropWhile isPySpace (pyStripList l) = pyStripList l := by
  obtain ⟨t, ht⟩ :=
    List.rdropWhile_prefix isPySpace (List.dropWhile isPySpace l)
  cases hu : pyStripList l with
  | nil => rfl
  | cons c r =>
    rw [pyStripList] at hu
    rw [hu] at ht
    have hmfix : List.dropWhile isPySpace ((c :: r) ++ t) = (c :: r) ++ t := by
      rw [ht]; exact List.dropWhile_idempotent _ _
    have hc : isPySpace c = false :=
      dropWhile_fix_head_not isPySpace c (r ++ t) (by simpa using hmfix)
    rw [List.dropWhile_cons_of_neg (by simp [hc])]

theorem pyStripList_idem (l : List Char) :
    pyStripList (pyStripList l) = pyStripList l := by
  conv_lhs => rw [pyStripList, dropWhile_pyStripList, pyStripList]
  exact List.rdropWhile_idempotent _ _

theorem pyStripList_append_fixed (u d : List Char)
    (hu : List.dropWhile isPySpace u = u)
    (hd1 : List.dropWhile isPySpace d = d)
    (hd2 : List.rdropWhile isPySpace d = d) (hne : d ≠ []) :
    pyStripList (u ++ d) = u ++ d := by
  rw [pyStripList, dropWhile_append_fix u d hu hd1, rdropWhile_append_fix u d hd2 hne]

theorem str_ext {s t : String} (h : s.data = t.data) : s = t := by
  cases s; cases t; exact congrArg String.mk h

theorem string_data_append (s t : String) : (s ++ t).data = s.data ++ t.data := rfl

theorem pyStrip_data (s : String) : (pyStrip s).data = pyStripList s.data := rfl

theorem pyStrip_idem (s : String) : pyStrip (pyStrip s) = pyStrip s :=
  str_ext (by rw [pyStrip_data, pyStrip_data, pyStripList_idem])

theorem pyStrip_append_fixed (s D : String)
    (hd1 : List.dropWhile isPySpace D.data = D.data)
    (hd2 : List.rdropWhile isPySpace D.data = D.data) (hne : D.data ≠ []) :
    pyStrip (pyStrip s ++ D) = pyStrip s ++ D :=
  str_ext (by
    rw [pyStrip_data, string_data_append, pyStrip_data]
    exact pyStripList_append_fixed _ _ (dropWhile_pyStripList _) hd1 hd2 hne)

theorem string_length_append (s t : String) : (s ++ t).length = s.length + t.length := by
  show (s ++ t).data.length = s.data.length + t.data.length
  rw [string_data_append, List.length_append]

theorem contains_append_right (l1 l2 : List Char) (a : Char)
    (h : l2.contains a = true) : (l1 ++ l2).contains a = true := by
  simp only [List.contains_eq_any_beq, List.any_append, Bool.or_eq_true] at *
  exact Or.inr h

/-- Evaluating `toApiTs` at an argument of the form
`pyStrip s ++ D` where `D` is a non-empty whitespace-free suffix:
the strip is a no-op, so only the length and dot tests matter. -/
theorem toApiTs_stripped_append (s D : String)
    (hd1 : List.dropWhile isPySpace D.data = D.data)
    (hd2 : List.rdropWhile isPySpace D.data = D.data) (hne : D.data ≠ []) :
    toApiTs (pyStrip s ++ D) =
      if ((pyStrip s).length + D.length) = 10 then pyStrip s ++ D ++ "T00:00:00.000"
      else if ((pyStrip s).data ++ D.data).contains '.' = false then pyStrip s ++ D ++ ".000"
      else pyStrip s ++ D := by
  rw [toApiTs, pyStrip_append_fixed s D hd1 hd2 hne, string_length_append,
    string_data_append]

/-- Claim C6 (amended): with `t` the whitespace-stripped input,
`_to_api_ts` returns `t ++ "T00:00:00.000"` when `t` has exactly 10
characters, else `t ++ ".000"` when `t` contains no `'.'`, else `t`
unchanged; in particular
`_to_api_ts "2025-01-15" = "2025-01-15T00:00:00.000"`. -/
theorem toApiTs_cases_on_stripped :
    (∀ s : String, (pyStrip s).length = 10 →
       toApiTs s = pyStrip s ++ "T00:00:00.000") ∧
    (∀ s : String, (pyStrip s).length ≠ 10 →
       (pyStrip s).data.contains '.' = false →
       toApiTs s = pyStrip s ++ ".000") ∧
    (∀ s : String, (pyStrip s).length ≠ 10 →
       (pyStrip s).data.contains '.' = true →
       toApiTs s = pyStrip s) ∧
    toApiTs "2025-01-15" = "2025-01-15T00:00:00.000" := by
  refine ⟨?_, ?_, ?_, by decide⟩
  · intro s h
    rw [toApiTs, if_pos h]
  · intro s h hdot
    rw [toApiTs, if_neg h, if_pos hdot]
  · intro s h hdot
    rw [toApiTs, if_neg h, if_neg (by rw [hdot]; simp)]

/-- Witness for the amended C6 at a concrete input with surrounding
whitespace. -/
theorem toApiTs_cases_on_stripped_witness :
    (pyStrip " 2025-01-15 ").length = 10 ∧
    toApiTs " 2025-01-15 " = pyStrip " 2025-01-15 " ++ "T00:00:00.000" :=
  ⟨by decide, toApiTs_cases_on_stripped.1 " 2025-01-15 " (by decide)⟩

/-- Counterexample to C6 as stated: (a) an input carrying surrounding
whitespace and a fractional-seconds dot is not returned unchanged —
it is stripped; (b) a 10-character input that is not a calendar date
still gets `T00:00:00.000` appended (the code tests only the length),
not `".000"` as the claim's second branch would require. -/
theorem toApiTs_literal_claim_false :
    toApiTs " 2025-01-15T09:00:00.123 " ≠ " 2025-01-15T09:00:00.123 " ∧
    toApiTs "abcdefghij" ≠ "abcdefghij.000" ∧
    toApiTs "abcdefghij" = "abcdefghijT00:00:00.000" :=
  ⟨by decide, by decide, by decide⟩

/-- Counterexample to C7 as stated: `_to_api_ts` is not idempotent.
A dot-free 6-character input gains `".000"`, reaching length 10, and
the second application then appends `"T00:00:00.000"`. -/
theorem toApiTs_not_idempotent :
    toApiTs (toApiTs "090000") ≠ toApiTs "090000" := by decide

/-- Claim C7 (amended): `_to_api_ts` is idempotent on every input
except those whose stripped form is a dot-free 6-character string;
in particular an input that already has a fractional-seconds
component is returned unchanged. -/
theorem toApiTs_idem_away_from_len6 :
    (∀ s : String,
       ¬((pyStrip s).length = 6 ∧ (pyStrip s).data.contains '.' = false) →
       toApiTs (toApiTs s) = toApiTs s) ∧
    toApiTs "2025-01-15T09:00:00.123" = "2025-01-15T09:00:00.123" := by
  constructor
  · intro s h
    by_cases h10 : (pyStrip s).length = 10
    · have hs : toApiTs s = pyStrip s ++ "T00:00:00.000" := by
        rw [toApiTs, if_pos h10]
      rw [hs, toApiTs_stripped_append s "T00:00:00.000" (by decide) (by decide) (by decide),
        if_neg (by rw [h10]; decide),
        if_neg (by rw [contains_append_right _ _ '.' (by decide)]; simp)]
    · by_cases hdot : (pyStrip s).data.contains '.' = false
      · have h6 : (pyStrip s).length ≠ 6 := fun h6 => h ⟨h6, hdot⟩
        have hs : toApiTs s = pyStrip s ++ ".000" := by
          rw [toApiTs, if_neg h10, if_pos hdot]
        rw [hs, toApiTs_stripped_append s ".000" (by decide) (by decide) (by decide),
          if_neg (by have h4 : (".000" : String).length = 4 := (by decide); omega),
          if_neg (by rw [contains_append_right _ _ '.' (by decide)]; simp)]
      · have hdott : (pyStrip s).data.contains '.' = true := by
          cases hc : (pyStrip s).data.contains '.'
          · exact absurd hc hdot
          · rfl
        have hs : toApiTs s = pyStrip s := by
          rw [toApiTs, if_neg h10, if_neg (by rw [hdott]; simp)]
        rw [hs, toApiTs, pyStrip_idem, if_neg h10,
          if_neg (by rw [hdott]; simp)]
  · decide

/-- Witness for the amended C7 at the claim's own concrete example. -/
theorem toApiTs_idem_away_from_len6_witness :
    ¬((pyStrip "2025-01-15T09:00:00.123").length = 6 ∧
      (pyStrip "2025-01-15T09:00:00.123").data.contains '.' = false) ∧
    toApiTs (toApiTs "2025-01-15T09:00:00.123") =
      toApiTs "2025-01-15T09:00:00.123" :=
  ⟨by decide, toApiTs_idem_away_from_len6.1 "2025-01-15T09:00:00.123" (by decide)⟩

/-- Claim C10: both timestamp normalizers are insensitive to
surrounding whitespace: `_to_api_ts` applies its tests to the
stripped input, and `_end_of_day_api_ts` appends `T23:59:59.999` to
the stripped input. -/
theorem normalizers_strip_insensitive (s : String) :
    toApiTs s = toApiTs (pyStrip s) ∧
    endOfDayApiTs s = pyStrip s ++ "T23:59:59.999" := by
  refine ⟨?_, rfl⟩
  rw [toApiTs, toApiTs, pyStrip_idem]

/-! ## Lemmas about `formatNote` -/

theorem except_bind_ok {α β : Type} (a : α) (f : α → Except String β) :
    (Except.ok a >>= f) = f a := rfl

theorem except_bind_error {α β : Type} (e : String) (f : α → Except String β) :
    ((Except.error e : Except String α) >>= f) = Except.error e := rfl

theorem str_isEmpty_true : ("" : String).isEmpty = true := rfl

theorem str_isEmpty_false {s : String} (h : ¬s = "") : s.isEmpty = false := by
  cases he : s.isEmpty
  · rfl
  · exact absurd ((String.isEmpty_iff s).mp he) h

theorem applyTags_cons_skip (text i k : String) (idx : List Json)
    (rest : List Json) (hidx : idx.isEmpty = true) :
    applyTags (Json.str text) (tagEntry (i, k, idx) :: rest) =
      applyTags (Json.str text) rest := by
  simp [applyTags, tagEntry, dictGetD, lookupD, pyTruthy, hidx, except_bind_ok]

theorem applyTags_cons_replace (text i k : String) (idx : List Json)
    (rest : List Json) (hidx : idx.isEmpty = false) :
    applyTags (Json.str text) (tagEntry (i, k, idx) :: rest) =
      applyTags (Json.str (pyReplace text (tagTok i) ("#" ++ k))) rest := by
  simp [applyTags, tagEntry, dictGetD, lookupD, pyTruthy, hidx, except_bind_ok,
    strReplaceJson, pyStr]

theorem applyTags_map (tags : List (String × String × List Json)) (text : String) :
    applyTags (Json.str text) (tags.map tagEntry) =
      Except.ok (Json.str (replaceTagsSpec text tags)) := by
  induction tags generalizing text with
  | nil => rfl
  | cons tg rest ih =>
    obtain ⟨i, k, idx⟩ := tg
    rw [List.map_cons]
    cases hidx : idx.isEmpty
    · rw [applyTags_cons_replace text i k idx _ hidx, ih]
      simp [replaceTagsSpec, hidx]
    · rw [applyTags_cons_skip text i k idx _ hidx, ih]
      simp [replaceTagsSpec, hidx]

theorem applyMentions_cons (text i k : String) (rest : List Json) :
    applyMentions (Json.str text) (mentionEntry (i, k) :: rest) =
      applyMentions (Json.str (pyReplace text (mentionTok i) ("@" ++ k))) rest := by
  simp [applyMentions, mentionEntry, dictGetD, lookupD, except_bind_ok,
    strReplaceJson, pyStr]

theorem applyMentions_map (mentions : List (String × String)) (text : String) :
    applyMentions (Json.str text) (mentions.map mentionEntry) =
      Except.ok (Json.str (replaceMentionsSpec text mentions)) := by
  induction mentions generalizing text with
  | nil => rfl
  | cons m rest ih =>
    obtain ⟨i, k⟩ := m
    rw [List.map_cons, applyMentions_cons, ih]
    simp [replaceMentionsSpec]

/-- The dict-level `_format_note` agrees with the spec's description on
every note of the shape the API delivers. -/
theorem formatNote_mkNote (text : String)
    (tags : List (String × String × List Json))
    (mentions : List (String × String)) :
    formatNote (mkNote text tags mentions) =
      Except.ok (formatNoteSpec text tags mentions) := by
  have h1 : dictGetD (mkNote text tags mentions) "text" (Json.str "") =
      Except.ok (Json.str text) := rfl
  have h2 : dictGetD (mkNote text tags mentions) "tags" (Json.arr []) =
      Except.ok (Json.arr (tags.map tagEntry)) := rfl
  have h3 : dictGetD (mkNote text tags mentions) "mentions" (Json.arr []) =
      Except.ok (Json.arr (mentions.map mentionEntry)) := rfl
  have hTruthy : pyTruthy (mkNote text tags mentions) = true := rfl
  rw [formatNote, if_neg (by rw [hTruthy]; simp), h1, except_bind_ok, h2,
    except_bind_ok, h3, except_bind_ok,
    show asArr (Json.arr (tags.map tagEntry)) = Except.ok (tags.map tagEntry) from rfl,
    except_bind_ok,
    show asArr (Json.arr (mentions.map mentionEntry)) =
      Except.ok (mentions.map mentionEntry) from rfl,
    except_bind_ok, applyTags_map, except_bind_ok, applyMentions_map, except_bind_ok]
  rfl

theorem replaceTagsSpec_all_empty (tags : List (String × String × List Json))
    (text : String) (h : ∀ tg ∈ tags, tg.2.2.isEmpty = true) :
    replaceTagsSpec text tags = text := by
  induction tags generalizing text with
  | nil => rfl
  | cons tg rest ih =>
    have h1 := h tg (List.mem_cons_self tg rest)
    simp only [replaceTagsSpec, List.foldl_cons, h1, if_pos]
    exact ih text (fun x hx => h x (List.mem_cons_of_mem tg hx))

/-! ## The claims about `_format_note` and `_format_entry` -/

/-- Claim C1: on every note, `_format_note` replaces, for each tag
entry with a non-empty `indices` list, every literal occurrence of
the tag token with `#` followed by the tag's key, then for every
mention entry unconditionally the mention token with `@` followed by
the mention's key, and trims surrounding whitespace; in particular
the note `{text: "Fixed <{\x7b|t|T1|\x7d}> with @<{\x7b|m|M1|\x7d}>",
tags: [{id:"T1", key:"WEB-1", indices:[0]}],
mentions: [{id:"M1", key:"alice"}]}` formats to
`"Fixed #WEB-1 with @@alice"`. -/
theorem formatNote_resolves_tokens :
    (∀ (text : String) (tags : List (String × String × List Json))
       (mentions : List (String × String)),
       formatNote (mkNote text tags mentions) =
         Except.ok (formatNoteSpec text tags mentions)) ∧
    formatNote (mkNote "Fixed <\x7b\x7b|t|T1|\x7d\x7d> with @<\x7b\x7b|m|M1|\x7d\x7d>"
        [("T1", "WEB-1", [Json.int 0])] [("M1", "alice")]) =
      Except.ok "Fixed #WEB-1 with @@alice" :=
  ⟨formatNote_mkNote, rfl⟩

/-- Claim C8: a tag entry whose `indices` list is empty is skipped by
`_format_note`: the output is as if the tag table were absent, so the
tag's placeholder token is left unresolved even when it literally
appears in the text. -/
theorem formatNote_empty_indices_skipped (text : String)
    (tags : List (String × String × List Json))
    (mentions : List (String × String))
    (hempty : ∀ tg ∈ tags, tg.2.2.isEmpty = true) :
    formatNote (mkNote text tags mentions) =
      Except.ok (pyStrip (replaceMentionsSpec text mentions)) := by
  rw [formatNote_mkNote, formatNoteSpec, replaceTagsSpec_all_empty tags text hempty]

/-- Witness for C8: a note whose text contains the tag's own token,
with empty `indices`: the token survives in the output. -/
theorem formatNote_empty_indices_skipped_witness :
    formatNote (mkNote "see <\x7b\x7b|t|T1|\x7d\x7d>" [("T1", "WEB-1", [])] []) =
      Except.ok "see <\x7b\x7b|t|T1|\x7d\x7d>" :=
  (formatNote_empty_indices_skipped "see <\x7b\x7b|t|T1|\x7d\x7d>"
    [("T1", "WEB-1", [])] []
    (by
      intro tg htg
      rw [List.mem_singleton] at htg
      subst htg
      rfl)).trans rfl

theorem isObjB_obtain (j : Json) (h : isObjB j = true) :
    ∃ fs, j = Json.obj fs := by
  cases j with
  | obj fs => exact ⟨fs, rfl⟩
  | null => exact absurd h (by simp [isObjB])
  | bool b => exact absurd h (by simp [isObjB])
  | int n => exact absurd h (by simp [isObjB])
  | str s => exact absurd h (by simp [isObjB])
  | arr xs => exact absurd h (by simp [isObjB])

/-- Claim C2 (amended): `_format_entry` never fails on an entry whose
`activity` and `duration` fields are absent or JSON objects — any
missing nested field yields the empty-string default, and a missing
or null `note` yields the empty display note.  (A present-but-null
`activity` or `duration`, however, raises `AttributeError`, see the
counterexample.) -/
theorem formatEntry_total_on_dict_fields :
    (∀ entry : List (String × Json),
       isObjB (lookupD entry "activity" (Json.obj [])) = true →
       isObjB (lookupD entry "duration" (Json.obj [])) = true →
       formatEntry entry =
         (formatNote (lookupD entry "note" Json.null)).map (fun noteTxt =>
           { id := lookupD entry "id" Json.null
             activity_id := lookupD entry "activityId" Json.null
             activity_name :=
               objGetD (lookupD entry "activity" (Json.obj [])) "name" (Json.str "")
             started_at :=
               objGetD (lookupD entry "duration" (Json.obj [])) "startedAt" (Json.str "")
             stopped_at :=
               objGetD (lookupD entry "duration" (Json.obj [])) "stoppedAt" (Json.str "")
             note := noteTxt
             note_raw := lookupD entry "note" Json.null })) ∧
    formatNote Json.null = Except.ok "" := by
  refine ⟨?_, rfl⟩
  intro entry hact hdur
  obtain ⟨aFs, hA⟩ := isObjB_obtain _ hact
  obtain ⟨dFs, hD⟩ := isObjB_obtain _ hdur
  cases hN : formatNote (lookupD entry "note" Json.null) with
  | ok s =>
    simp [formatEntry, hA, hD, hN, dictGetD, objGetD, except_bind_ok, Except.map]
  | error e =>
    simp [formatEntry, hA, hD, hN, dictGetD, objGetD, except_bind_ok,
      except_bind_error, Except.map]

/-- Witness for the amended C2: the empty entry (every field missing)
formats to all-default values. -/
theorem formatEntry_total_on_dict_fields_witness :
    isObjB (lookupD [] "activity" (Json.obj [])) = true ∧
    isObjB (lookupD [] "duration" (Json.obj [])) = true ∧
    formatEntry [] = Except.ok
      { id := Json.null, activity_id := Json.null, activity_name := Json.str "",
        started_at := Json.str "", stopped_at := Json.str "",
        note := "", note_raw := Json.null } :=
  ⟨rfl, rfl, (formatEntry_total_on_dict_fields.1 [] rfl rfl).trans rfl⟩

/-- Counterexample to C2 as stated: an entry whose `activity` field is
present but null makes `_format_entry` raise
(`entry.get("activity", {})` returns `None`, and `None.get` has no
such attribute) instead of yielding `activity_name = ""`. -/
theorem formatEntry_null_activity_raises :
    formatEntry [("activity", Json.null)] =
      Except.error "AttributeError: no attribute get" := rfl

/-! ## The claims about `_client` -/

/-- Claim C3 (the code violates it): with two concurrent first callers
and the interleaving in which both run the `_http is None` check
before either stores a client, `_client` performs TWO sign-in HTTP
calls and the callers obtain two DIFFERENT clients (the second
overwriting `_http`), not one shared client — there is no
single-flight guard in the code. -/
theorem clientRace_two_signIns :
    runSched { apiKey := some "k", apiSecret := some "s", signInOk := true }
        [0, 1, 0, 1, 0, 1] [TaskState.start, TaskState.start] initSess =
      ([TaskState.finished 0, TaskState.finished 1],
       { http := some 1, signIns := 2, nextClient := 2 }) ∧
    (2 : Nat) ≠ 1 ∧ (0 : Nat) ≠ 1 :=
  ⟨rfl, by decide, by decide⟩

/-- Claim C4: once a client is stored in `_http`, every subsequent
(non-overlapping) call returns that same client and leaves the whole
session state — stored client and sign-in count — unchanged: no
re-authentication, no replacement, for any number of further calls. -/
theorem clientCall_stable_after_stored (env : Env) (n : Nat) (g : SessState)
    (c : Nat) (h : g.http = some c) :
    runCalls env n g = (List.replicate n (Except.ok c), g) := by
  induction n with
  | zero => simp [runCalls, List.replicate]
  | succ n ih =>
    have hc : clientCall env g = (Except.ok c, g) := by
      simp [clientCall, h]
    simp [runCalls, hc, ih, List.replicate]

/-- Witness for C4 at a concrete stored state. -/
theorem clientCall_stable_after_stored_witness :
    ({ http := some 7, signIns := 1, nextClient := 8 } : SessState).http = some 7 ∧
    runCalls { apiKey := some "k", apiSecret := some "s", signInOk := true } 3
        { http := some 7, signIns := 1, nextClient := 8 } =
      ([Except.ok 7, Except.ok 7, Except.ok 7],
       { http := some 7, signIns := 1, nextClient := 8 }) :=
  ⟨rfl, (clientCall_stable_after_stored
    { apiKey := some "k", apiSecret := some "s", signInOk := true } 3
    { http := some 7, signIns := 1, nextClient := 8 } 7 rfl).trans rfl⟩

/-- Claim C5: when no client is stored and either credential is absent
or empty, `_client` raises the configuration error and the state is
unchanged — in particular the sign-in counter does not move, so no
HTTP call (sign-in included) was attempted. -/
theorem clientCall_missing_creds_config_error (env : Env) (g : SessState)
    (hg : g.http = none)
    (hcred : (env.apiKey = none ∨ env.apiKey = some "") ∨
             (env.apiSecret = none ∨ env.apiSecret = some "")) :
    clientCall env g = (Except.error ClientErr.configError, g) := by
  have hfalsy : (!optStrTruthy env.apiKey || !optStrTruthy env.apiSecret) = true := by
    rcases hcred with (h | h) | (h | h) <;> simp [h, optStrTruthy, str_isEmpty_true]
  simp [clientCall, hg, hfalsy]

/-- Witness for C5: absent API key at process start. -/
theorem clientCall_missing_creds_config_error_witness :
    initSess.http = none ∧
    clientCall { apiKey := none, apiSecret := some "secret", signInOk := true }
        initSess = (Except.error ClientErr.configError, initSess) :=
  ⟨rfl, clientCall_missing_creds_config_error
    { apiKey := none, apiSecret := some "secret", signInOk := true } initSess
    rfl (Or.inl (Or.inl rfl))⟩

/-! ## The claim about the partial-update request bodies -/

/-- Claim C9: the bodies built by `early_edit_current_tracking` and
`early_update_time_entry` contain exactly the keys whose argument was
supplied non-empty, in source insertion order; empty-string defaults
are omitted entirely. -/
theorem partial_update_bodies_exact_keys :
    (∀ note activity_id started_at : String,
       (editCurrentTrackingBody note activity_id started_at).map Prod.fst =
         (if note = "" then [] else ["note"]) ++
         (if activity_id = "" then [] else ["activityId"]) ++
         (if started_at = "" then [] else ["startedAt"])) ∧
    (∀ activity_id started_at stopped_at note : String,
       (updateTimeEntryBody activity_id started_at stopped_at note).map Prod.fst =
         (if activity_id = "" then [] else ["activityId"]) ++
         (if started_at = "" then [] else ["startedAt"]) ++
         (if stopped_at = "" then [] else ["stoppedAt"]) ++
         (if note = "" then [] else ["note"])) := by
  constructor
  · intro n a s
    by_cases hn : n = "" <;> by_cases ha : a = "" <;> by_cases hs : s = "" <;>
      simp [editCurrentTrackingBody, hn, ha, hs, str_isEmpty_true, str_isEmpty_false]
  · intro a s st n
    by_cases ha : a = "" <;> by_cases hs : s = "" <;> by_cases hst : st = "" <;>
      by_cases hn : n = "" <;>
      simp [updateTimeEntryBody, ha, hs, hst, hn, str_isEmpty_true, str_isEmpty_false]

end EarlyMcp
